import Mathlib

/-!
Verification of the colour library core: the ACES relative-exposure
spectral integrator (`colour/models/aces_rgb_idt.py`), the bundled RGB
colourspace matrices and transfer functions
(`colour/models/dataset/rec_709.py`,
`colour/models/dataset/adobe_wide_gamut_rgb.py`), and the 1-d
extrapolation machinery exercised by
`colour/algebra/tests/tests_extrapolation.py`.

Numeric modelling conventions: numpy double values are embedded as exact
rationals.  A numpy scalar that becomes non-finite (infinity or NaN, as
produced by IEEE division by zero under the default errstate, which warns
and does not raise) is embedded as `none : Option ℚ`; every arithmetic
operation of the modelled pipeline maps non-finite operands to non-finite
results, so propagating `none` is faithful there.  The transfer functions
use real `rpow` for the Python float power operator.
-/

namespace Colour

/-- Source constant `FLARE_PERCENTAGE = 0.00500` from `aces_rgb_idt.py`. -/
def FLARE_PERCENTAGE : ℚ := 0.00500

/-- Source constant `S_FLARE_FACTOR = 0.18000 / (0.18000 + FLARE_PERCENTAGE)`. -/
def S_FLARE_FACTOR : ℚ := 0.18000 / (0.18000 + FLARE_PERCENTAGE)

/-- Elementwise product followed by summation: `np.sum(x * y)` on two aligned
1-d arrays. -/
def dot (x y : List ℚ) : ℚ := (List.zipWith (· * ·) x y).sum

/-- Triple elementwise product followed by summation:
`np.sum(x * y * z)` on three aligned 1-d arrays. -/
def dot3 (x y z : List ℚ) : ℚ :=
  (List.zipWith (· * ·) (List.zipWith (· * ·) x y) z).sum

/-- The normalisation lambda `k = lambda x, y: 1 / np.sum(x * y)` of the
source.  When the denominator is exactly zero, IEEE division produces a
non-finite value (numpy warns, no exception), modelled as `none`. -/
def kCoeff (x y : List ℚ) : Option ℚ :=
  if dot x y = 0 then none else some (1 / dot x y)

/-- One channel of the weighted sum, source lines
`E_r = k_r * np.sum(illuminant * spd * r_bar)` (and the g, b analogues):
the per-invocation coefficient `kCoeff illuminant cbar` times the triple
product sum.  A non-finite coefficient makes the channel non-finite. -/
def channelExposure (spd illuminant cbar : List ℚ) : Option ℚ :=
  (kCoeff illuminant cbar).map (fun k => k * dot3 illuminant spd cbar)

/-- A 3-channel result vector, each channel an exact rational or a
non-finite marker. -/
abbrev RGBE := Option ℚ × Option ℚ × Option ℚ

/-- Source line `E_rgb += FLARE_PERCENTAGE`: the flare fraction is added to
each of the three channels. -/
def addFlare (e : RGBE) : RGBE :=
  (e.1.map (· + FLARE_PERCENTAGE),
   e.2.1.map (· + FLARE_PERCENTAGE),
   e.2.2.map (· + FLARE_PERCENTAGE))

/-- Source line `E_rgb *= S_FLARE_FACTOR`: all three channels are rescaled
by the one shared factor. -/
def scaleFlare (e : RGBE) : RGBE :=
  (e.1.map (· * S_FLARE_FACTOR),
   e.2.1.map (· * S_FLARE_FACTOR),
   e.2.2.map (· * S_FLARE_FACTOR))

/-- Numeric core of `spectral_to_aces_relative_exposure_values` (source
lines 94-117), on data already aligned to the shared wavelength grid.  The
three response curves `r_bar, g_bar, b_bar` are the ACES RICD
colour-matching values, received here as parameters because the RICD
dataset is an external collaborator of the sampled code. -/
def aces_values (spd illuminant r_bar g_bar b_bar : List ℚ) : RGBE :=
  scaleFlare (addFlare
    (channelExposure spd illuminant r_bar,
     channelExposure spd illuminant g_bar,
     channelExposure spd illuminant b_bar))

/-- A 3x3 matrix of exact rationals, row by row, embedding the numpy
`(3, 3)` arrays of the colourspace dataset modules. -/
structure Mat3 where
  m00 : ℚ
  m01 : ℚ
  m02 : ℚ
  m10 : ℚ
  m11 : ℚ
  m12 : ℚ
  m20 : ℚ
  m21 : ℚ
  m22 : ℚ
deriving DecidableEq, Repr

/-- Matrix product of two 3x3 matrices. -/
def Mat3.mul (A B : Mat3) : Mat3 where
  m00 := A.m00 * B.m00 + A.m01 * B.m10 + A.m02 * B.m20
  m01 := A.m00 * B.m01 + A.m01 * B.m11 + A.m02 * B.m21
  m02 := A.m00 * B.m02 + A.m01 * B.m12 + A.m02 * B.m22
  m10 := A.m10 * B.m00 + A.m11 * B.m10 + A.m12 * B.m20
  m11 := A.m10 * B.m01 + A.m11 * B.m11 + A.m12 * B.m21
  m12 := A.m10 * B.m02 + A.m11 * B.m12 + A.m12 * B.m22
  m20 := A.m20 * B.m00 + A.m21 * B.m10 + A.m22 * B.m20
  m21 := A.m20 * B.m01 + A.m21 * B.m11 + A.m22 * B.m21
  m22 := A.m20 * B.m02 + A.m21 * B.m12 + A.m22 * B.m22

/-- The 3x3 identity matrix. -/
def Mat3.one : Mat3 := ⟨1, 0, 0, 0, 1, 0, 0, 0, 1⟩

/-- Entrywise difference of two 3x3 matrices. -/
def Mat3.sub (A B : Mat3) : Mat3 :=
  ⟨A.m00 - B.m00, A.m01 - B.m01, A.m02 - B.m02,
   A.m10 - B.m10, A.m11 - B.m11, A.m12 - B.m12,
   A.m20 - B.m20, A.m21 - B.m21, A.m22 - B.m22⟩

/-- The determinant of a 3x3 matrix. -/
def Mat3.det (A : Mat3) : ℚ :=
  A.m00 * (A.m11 * A.m22 - A.m12 * A.m21)
    - A.m01 * (A.m10 * A.m22 - A.m12 * A.m20)
    + A.m02 * (A.m10 * A.m21 - A.m11 * A.m20)

/-- Exact 3x3 matrix inverse (adjugate over determinant), the embedding of
`np.linalg.inv` on a nonsingular 3x3 array.  On a singular argument numpy
raises; the development only applies `inv` to matrices whose product with
the result is proved to be the identity, which certifies nonsingularity. -/
def Mat3.inv (A : Mat3) : Mat3 :=
  let d := A.det
  ⟨(A.m11 * A.m22 - A.m12 * A.m21) / d,
   (A.m02 * A.m21 - A.m01 * A.m22) / d,
   (A.m01 * A.m12 - A.m02 * A.m11) / d,
   (A.m12 * A.m20 - A.m10 * A.m22) / d,
   (A.m00 * A.m22 - A.m02 * A.m20) / d,
   (A.m02 * A.m10 - A.m00 * A.m12) / d,
   (A.m10 * A.m21 - A.m11 * A.m20) / d,
   (A.m01 * A.m20 - A.m00 * A.m21) / d,
   (A.m00 * A.m11 - A.m01 * A.m10) / d⟩

/-- Matrix action on a column 3-vector. -/
def Mat3.mulVec (A : Mat3) (v : ℚ × ℚ × ℚ) : ℚ × ℚ × ℚ :=
  (A.m00 * v.1 + A.m01 * v.2.1 + A.m02 * v.2.2,
   A.m10 * v.1 + A.m11 * v.2.1 + A.m12 * v.2.2,
   A.m20 * v.1 + A.m21 * v.2.1 + A.m22 * v.2.2)

/-- Squared Frobenius norm: the sum of the squares of the nine entries. -/
def Mat3.frobSq (A : Mat3) : ℚ :=
  A.m00 ^ 2 + A.m01 ^ 2 + A.m02 ^ 2 +
  A.m10 ^ 2 + A.m11 ^ 2 + A.m12 ^ 2 +
  A.m20 ^ 2 + A.m21 ^ 2 + A.m22 ^ 2

/-- Source constant `REC_709_TO_XYZ_MATRIX` from `dataset/rec_709.py`. -/
def REC_709_TO_XYZ_MATRIX : Mat3 :=
  ⟨0.41238656, 0.35759149, 0.18045049,
   0.21263682, 0.71518298, 0.0721802,
   0.01933062, 0.11919716, 0.95037259⟩

/-- Source definition `XYZ_TO_REC_709_MATRIX = np.linalg.inv(REC_709_TO_XYZ_MATRIX)`:
the inverse is computed from the forward matrix, not supplied as an
independent constant. -/
def XYZ_TO_REC_709_MATRIX : Mat3 := REC_709_TO_XYZ_MATRIX.inv

/-- Source constant `ADOBE_WIDE_GAMUT_RGB_PRIMARIES` from
`dataset/adobe_wide_gamut_rgb.py`: three rows of (x, y) chromaticities. -/
def ADOBE_WIDE_GAMUT_RGB_PRIMARIES : (ℚ × ℚ) × (ℚ × ℚ) × (ℚ × ℚ) :=
  ((0.7347, 0.2653), (0.1152, 0.8264), (0.1566, 0.0177))

/-- Modelled from the spec: the D50 whitepoint chromaticity that the
dataset collaborator (`colour.colorimetry.ILLUMINANTS`, outside the sampled
files) supplies for the CIE 1931 2 degree standard observer. -/
def ADOBE_WIDE_GAMUT_RGB_WHITEPOINT : ℚ × ℚ := (0.34567, 0.35850)

/-- Modelled from the spec: lift a chromaticity (x, y) to the XYZ
tristimulus vector (x / y, 1, (1 - x - y) / y) of luminance one, the form
the whitepoint takes on the right-hand side of the primary solve. -/
def xy_to_XYZ (c : ℚ × ℚ) : ℚ × ℚ × ℚ :=
  (c.1 / c.2, 1, (1 - c.1 - c.2) / c.2)

/-- Modelled from the spec: `normalised_primary_matrix(primaries, whitepoint)`
(its code is outside the sampled files).  Build the matrix whose columns are
the primary chromaticities lifted to (x, y, 1 - x - y), invert it, multiply
by the whitepoint XYZ vector to obtain per-primary scale factors, and scale
each column by its factor. -/
def normalised_primary_matrix (p : (ℚ × ℚ) × (ℚ × ℚ) × (ℚ × ℚ))
    (w : ℚ × ℚ) : Mat3 :=
  let P : Mat3 :=
    ⟨p.1.1, p.2.1.1, p.2.2.1,
     p.1.2, p.2.1.2, p.2.2.2,
     1 - p.1.1 - p.1.2, 1 - p.2.1.1 - p.2.1.2, 1 - p.2.2.1 - p.2.2.2⟩
  let C := P.inv.mulVec (xy_to_XYZ w)
  ⟨P.m00 * C.1, P.m01 * C.2.1, P.m02 * C.2.2,
   P.m10 * C.1, P.m11 * C.2.1, P.m12 * C.2.2,
   P.m20 * C.1, P.m21 * C.2.1, P.m22 * C.2.2⟩

/-- Source definition `ADOBE_WIDE_GAMUT_RGB_TO_XYZ_MATRIX =
normalised_primary_matrix(primaries, whitepoint)`. -/
def ADOBE_WIDE_GAMUT_RGB_TO_XYZ_MATRIX : Mat3 :=
  normalised_primary_matrix ADOBE_WIDE_GAMUT_RGB_PRIMARIES
    ADOBE_WIDE_GAMUT_RGB_WHITEPOINT

/-- Source definition `XYZ_TO_ADOBE_WIDE_GAMUT_RGB_MATRIX =
np.linalg.inv(ADOBE_WIDE_GAMUT_RGB_TO_XYZ_MATRIX)`. -/
def XYZ_TO_ADOBE_WIDE_GAMUT_RGB_MATRIX : Mat3 :=
  ADOBE_WIDE_GAMUT_RGB_TO_XYZ_MATRIX.inv

lemma zipWith_mul_replicate (xs : List ℚ) (v : ℚ) :
    List.zipWith (· * ·) xs (List.replicate xs.length v) = xs.map (· * v) := by
  induction xs with
  | nil => rfl
  | cons a t ih => simp [List.replicate_succ, ih]

lemma sum_zipWith_scaled (xs : List ℚ) (v : ℚ) :
    ∀ ys : List ℚ, (List.zipWith (· * ·) (xs.map (· * v)) ys).sum =
      v * (List.zipWith (· * ·) xs ys).sum := by
  induction xs with
  | nil => intro ys; simp
  | cons a t ih =>
    intro ys
    cases ys with
    | nil => simp
    | cons b u =>
      simp only [List.map_cons, List.zipWith_cons_cons, List.sum_cons, ih u]
      ring

lemma dot3_replicate (ill cb : List ℚ) (v : ℚ) :
    dot3 ill (List.replicate ill.length v) cb = v * dot ill cb := by
  unfold dot3 dot
  rw [zipWith_mul_replicate, sum_zipWith_scaled]

lemma channelExposure_replicate (ill cb : List ℚ) (v : ℚ) (h : dot ill cb ≠ 0) :
    channelExposure (List.replicate ill.length v) ill cb = some v := by
  simp only [channelExposure, kCoeff, h, if_false, Option.map_some, dot3_replicate,
    if_neg h]
  field_simp

lemma zipWith_mul_mem_nonneg :
    ∀ xs ys : List ℚ, (∀ a ∈ xs, 0 ≤ a) → (∀ b ∈ ys, 0 ≤ b) →
      ∀ c ∈ List.zipWith (· * ·) xs ys, 0 ≤ c := by
  intro xs
  induction xs with
  | nil => intro ys _ _ c hc; simp at hc
  | cons a t ih =>
    intro ys hx hy c hc
    cases ys with
    | nil => simp at hc
    | cons b u =>
      simp only [List.zipWith_cons_cons, List.mem_cons] at hc
      rcases hc with rfl | hc
      · exact mul_nonneg (hx a (by simp)) (hy b (by simp))
      · exact ih u (fun z hz => hx z (by simp [hz])) (fun z hz => hy z (by simp [hz])) c hc

lemma dot3_nonneg (x y z : List ℚ) (hx : ∀ a ∈ x, 0 ≤ a) (hy : ∀ a ∈ y, 0 ≤ a)
    (hz : ∀ a ∈ z, 0 ≤ a) : 0 ≤ dot3 x y z := by
  unfold dot3
  exact List.sum_nonneg
    (zipWith_mul_mem_nonneg _ _ (zipWith_mul_mem_nonneg x y hx hy) hz)

/-- Source lambda `REC_709_TRANSFER_FUNCTION` from `dataset/rec_709.py`:
`x * 4.5 if x < 0.018 else 1.099 * (x ** 0.45) - 0.099`. -/
noncomputable def REC_709_TRANSFER_FUNCTION (x : ℝ) : ℝ :=
  if x < 0.018 then x * 4.5 else 1.099 * x ^ (0.45 : ℝ) - 0.099

/-- Source lambda `REC_709_INVERSE_TRANSFER_FUNCTION` from
`dataset/rec_709.py`:
`x / 4.5 if x < 0.018 else ((x + 0.099) / 1.099) ** (1 / 0.45)`.  Note that
the branch threshold compares the encoded signal against 0.018. -/
noncomputable def REC_709_INVERSE_TRANSFER_FUNCTION (x : ℝ) : ℝ :=
  if x < 0.018 then x / 4.5 else ((x + 0.099) / 1.099) ^ ((1 : ℝ) / 0.45)

/-- Source lambda `ADOBE_WIDE_GAMUT_RGB_TRANSFER_FUNCTION`:
`x ** (1 / (563 / 256))`. -/
noncomputable def ADOBE_WIDE_GAMUT_RGB_TRANSFER_FUNCTION (x : ℝ) : ℝ :=
  x ^ ((1 : ℝ) / (563 / 256))

/-- Source lambda `ADOBE_WIDE_GAMUT_RGB_INVERSE_TRANSFER_FUNCTION`:
`x ** (563 / 256)`. -/
noncomputable def ADOBE_WIDE_GAMUT_RGB_INVERSE_TRANSFER_FUNCTION (x : ℝ) : ℝ :=
  x ^ ((563 : ℝ) / 256)

/-- Extrapolation boundary policies of the Extrapolator. -/
inductive ExtrapMethod where
  | Linear
  | Constant
deriving DecidableEq, Repr

/-- Modelled from the spec: `LinearInterpolator1d` (its code is outside the
sampled files, only its tests are).  Piecewise linear interpolation over
sample points with strictly increasing first components. -/
def linearInterp : List (ℚ × ℚ) → ℚ → ℚ
  | [], _ => 0
  | [p], _ => p.2
  | p :: q :: rest, x =>
    if x ≤ q.1 then p.2 + (x - p.1) * ((q.2 - p.2) / (q.1 - p.1))
    else linearInterp (q :: rest) x

/-- Slope estimated by a forward difference on the two leftmost samples. -/
def slopeLeft (xs ys : List ℚ) : ℚ :=
  match xs, ys with
  | x₀ :: x₁ :: _, y₀ :: y₁ :: _ => (y₁ - y₀) / (x₁ - x₀)
  | _, _ => 0

/-- Slope estimated by a backward difference on the two rightmost samples. -/
def slopeRight (xs ys : List ℚ) : ℚ := slopeLeft xs.reverse ys.reverse

/-- Modelled from the spec: `Extrapolator1d` over a linear interpolation of
the samples `xs, ys` (the extrapolator code is outside the sampled files,
only its tests are).  Inside the domain it delegates to the interpolator;
below the domain the Constant policy returns the left sample value and the
Linear policy returns `f(a) + (x - a) * slope_at_a` with the
forward-difference slope, symmetrically above the domain.  Linear is the
default policy of the source constructor. -/
def extrapolatorEval (method : ExtrapMethod) (xs ys : List ℚ) (x : ℚ) : ℚ :=
  let a := xs.headD 0
  let b := xs.getLastD 0
  if x < a then
    match method with
    | ExtrapMethod.Constant => ys.headD 0
    | ExtrapMethod.Linear => ys.headD 0 + (x - a) * slopeLeft xs ys
  else if x > b then
    match method with
    | ExtrapMethod.Constant => ys.getLastD 0
    | ExtrapMethod.Linear => ys.getLastD 0 + (x - b) * slopeRight xs ys
  else linearInterp (xs.zip ys) x

/-- Elementwise evaluation on a 1-d array argument, the numpy vector mode
of the extrapolator. -/
def extrapolatorEvalList (method : ExtrapMethod) (xs ys qs : List ℚ) : List ℚ :=
  qs.map (extrapolatorEval method xs ys)

/-- A sampled spectral function: a wavelength grid and the value at each
of its points. -/
structure SpectralFunction where
  wavelengths : List ℚ
  values : List ℚ
deriving DecidableEq, Repr

/-- The sampling shape of a spectral function, identified with its
wavelength grid. -/
def SpectralFunction.shape (f : SpectralFunction) : List ℚ := f.wavelengths

/-- Modelled from the spec: `clone()` returns an independent copy of the
spectral function, so that later in-place operations leave the original
object untouched. -/
def SpectralFunction.clone (f : SpectralFunction) : SpectralFunction :=
  ⟨f.wavelengths, f.values⟩

/-- Modelled from the spec: `align(shape)` resamples onto the target grid,
interpolating inside the original domain and extrapolating outside it with
the Constant boundary policy using the edge values. -/
def SpectralFunction.align (f : SpectralFunction) (grid : List ℚ) :
    SpectralFunction :=
  ⟨grid, extrapolatorEvalList ExtrapMethod.Constant f.wavelengths f.values grid⟩

/-- State-passing embedding of `spectral_to_aces_relative_exposure_values`
(source lines 87-117).  The ACES RICD shape and response curves are
parameters (that dataset is an external collaborator).  The result carries
the returned exposure triple together with the post-call state of the two
objects the caller passed in; the source aligns `spd.clone().align(shape)`
(a fresh copy, rebinding only the local name), so the caller-visible
objects are the ones received. -/
def spectral_to_aces_relative_exposure_values (ricdShape rb gb bb : List ℚ)
    (spd illuminant : SpectralFunction) :
    RGBE × SpectralFunction × SpectralFunction :=
  let spdA := if spd.shape ≠ ricdShape then spd.clone.align ricdShape else spd
  let illA := if illuminant.shape ≠ ricdShape then illuminant.clone.align ricdShape
              else illuminant
  (aces_values spdA.values illA.values rb gb bb, spd, illuminant)

/-- C1: for every spd and illuminant aligned on the shared wavelength grid,
the integrator returns, for each channel c, the value
k_c * sum(illuminant * spd * c_bar) with k_c = 1 / sum(illuminant * c_bar)
recomputed from the given illuminant, and the flare step is applied after
that weighted sum. -/
theorem aces_exposure_weighted_sum (spd ill rb gb bb : List ℚ)
    (hr : dot ill rb ≠ 0) (hg : dot ill gb ≠ 0) (hb : dot ill bb ≠ 0) :
    aces_values spd ill rb gb bb =
      (some ((1 / dot ill rb * dot3 ill spd rb + FLARE_PERCENTAGE) * S_FLARE_FACTOR),
       some ((1 / dot ill gb * dot3 ill spd gb + FLARE_PERCENTAGE) * S_FLARE_FACTOR),
       some ((1 / dot ill bb * dot3 ill spd bb + FLARE_PERCENTAGE) * S_FLARE_FACTOR)) := by
  simp [aces_values, scaleFlare, addFlare, channelExposure, kCoeff, hr, hg, hb]

/-- Witness for C1 at concrete aligned data. -/
theorem aces_exposure_weighted_sum_witness :
    aces_values [2] [3] [1] [1] [1] =
      (some ((1 / dot [3] [1] * dot3 [3] [2] [1] + FLARE_PERCENTAGE) * S_FLARE_FACTOR),
       some ((1 / dot [3] [1] * dot3 [3] [2] [1] + FLARE_PERCENTAGE) * S_FLARE_FACTOR),
       some ((1 / dot [3] [1] * dot3 [3] [2] [1] + FLARE_PERCENTAGE) * S_FLARE_FACTOR)) :=
  aces_exposure_weighted_sum [2] [3] [1] [1] [1]
    (by norm_num [dot]) (by norm_num [dot]) (by norm_num [dot])

/-- C2: the flare step adds the constant fraction 0.005 to each of the three
channels, then rescales all three by the one shared factor
S = 0.18 / (0.18 + 0.005); a channel whose pre-flare value is exactly 0.18
is mapped back to exactly 0.18. -/
theorem flare_compensation_order :
    (∀ e₁ e₂ e₃ : ℚ, scaleFlare (addFlare (some e₁, some e₂, some e₃)) =
        (some ((e₁ + FLARE_PERCENTAGE) * S_FLARE_FACTOR),
         some ((e₂ + FLARE_PERCENTAGE) * S_FLARE_FACTOR),
         some ((e₃ + FLARE_PERCENTAGE) * S_FLARE_FACTOR))) ∧
    FLARE_PERCENTAGE = 0.005 ∧
    S_FLARE_FACTOR = 0.18 / (0.18 + 0.005) ∧
    (∀ e₂ e₃ : ℚ, (scaleFlare (addFlare (some 0.18, some e₂, some e₃))).1 = some 0.18) := by
  refine ⟨fun e₁ e₂ e₃ => rfl, by norm_num [FLARE_PERCENTAGE],
    by norm_num [S_FLARE_FACTOR, FLARE_PERCENTAGE], fun e₂ e₃ => ?_⟩
  show some ((0.18 + FLARE_PERCENTAGE) * S_FLARE_FACTOR) = some (0.18 : ℚ)
  norm_num [FLARE_PERCENTAGE, S_FLARE_FACTOR]

/-- C4: for both colourspaces defined in the repository the inverse matrix
is the exact inverse of the forward matrix (as in the source, where it is
obtained by `np.linalg.inv`, never as an independent constant), the product
of forward and inverse is exactly the 3x3 identity, and hence its squared
Frobenius distance from the identity is at most (1e-9)^2. -/
theorem colourspace_forward_inverse_identity :
    (XYZ_TO_REC_709_MATRIX = REC_709_TO_XYZ_MATRIX.inv ∧
     Mat3.mul REC_709_TO_XYZ_MATRIX XYZ_TO_REC_709_MATRIX = Mat3.one ∧
     Mat3.frobSq (Mat3.sub (Mat3.mul REC_709_TO_XYZ_MATRIX XYZ_TO_REC_709_MATRIX)
        Mat3.one) ≤ (1 / 10 ^ 9) ^ 2) ∧
    (XYZ_TO_ADOBE_WIDE_GAMUT_RGB_MATRIX = ADOBE_WIDE_GAMUT_RGB_TO_XYZ_MATRIX.inv ∧
     Mat3.mul ADOBE_WIDE_GAMUT_RGB_TO_XYZ_MATRIX XYZ_TO_ADOBE_WIDE_GAMUT_RGB_MATRIX
        = Mat3.one ∧
     Mat3.frobSq (Mat3.sub
        (Mat3.mul ADOBE_WIDE_GAMUT_RGB_TO_XYZ_MATRIX XYZ_TO_ADOBE_WIDE_GAMUT_RGB_MATRIX)
        Mat3.one) ≤ (1 / 10 ^ 9) ^ 2) := by
  have hrec : Mat3.mul REC_709_TO_XYZ_MATRIX XYZ_TO_REC_709_MATRIX = Mat3.one := by
    simp only [Mat3.mul, Mat3.one, Mat3.inv, Mat3.det, REC_709_TO_XYZ_MATRIX,
      XYZ_TO_REC_709_MATRIX, Mat3.mk.injEq]
    norm_num
  have hadobe : Mat3.mul ADOBE_WIDE_GAMUT_RGB_TO_XYZ_MATRIX
      XYZ_TO_ADOBE_WIDE_GAMUT_RGB_MATRIX = Mat3.one := by
    have h1 : ADOBE_WIDE_GAMUT_RGB_TO_XYZ_MATRIX =
        ⟨409007561021/570923331450, 9612975872/95153888575, 13967617971/95153888575,
         443077606937/1712769994350, 620637754736/856384997175, 9472292647/570923331450,
         0, 43859202416/856384997175, 1325639328581/1712769994350⟩ := by
      simp only [ADOBE_WIDE_GAMUT_RGB_TO_XYZ_MATRIX, normalised_primary_matrix,
        ADOBE_WIDE_GAMUT_RGB_PRIMARIES, ADOBE_WIDE_GAMUT_RGB_WHITEPOINT,
        Mat3.inv, Mat3.det, Mat3.mulVec, xy_to_XYZ, Mat3.mk.injEq]
      norm_num
    rw [XYZ_TO_ADOBE_WIDE_GAMUT_RGB_MATRIX, h1]
    simp only [Mat3.mul, Mat3.one, Mat3.inv, Mat3.det, Mat3.mk.injEq]
    norm_num
  refine ⟨⟨rfl, hrec, ?_⟩, ⟨rfl, hadobe, ?_⟩⟩
  · rw [hrec]; norm_num [Mat3.sub, Mat3.frobSq, Mat3.one]
  · rw [hadobe]; norm_num [Mat3.sub, Mat3.frobSq, Mat3.one]

/-- C5 counterexample: with an illuminant whose product sum against every
response curve is zero, the call completes and returns a triple (its
channels carry the non-finite IEEE values produced by division by zero,
modelled as `none`): numpy float division by zero warns and yields
infinity under the default errstate, it does not raise, so no
DivideByZeroError occurs. -/
theorem aces_zero_integral_no_exception :
    aces_values [1] [0] [1] [1] [1] = (none, none, none) := by
  simp [aces_values, scaleFlare, addFlare, channelExposure, kCoeff, dot, dot3]

/-- C5 as amended: a zero channel integral makes that channel of the
returned triple non-finite (no exception is raised, the value is
returned), and when all three channel integrals are nonzero every returned
channel is a finite value. -/
theorem aces_zero_integral_nonfinite_channels (spd ill rb gb bb : List ℚ) :
    (dot ill rb = 0 → (aces_values spd ill rb gb bb).1 = none) ∧
    (dot ill gb = 0 → (aces_values spd ill rb gb bb).2.1 = none) ∧
    (dot ill bb = 0 → (aces_values spd ill rb gb bb).2.2 = none) ∧
    (dot ill rb ≠ 0 → dot ill gb ≠ 0 → dot ill bb ≠ 0 →
      ∃ a b c : ℚ, aces_values spd ill rb gb bb = (some a, some b, some c)) := by
  refine ⟨fun h => ?_, fun h => ?_, fun h => ?_, fun hr hg hb => ?_⟩
  · simp [aces_values, scaleFlare, addFlare, channelExposure, kCoeff, h]
  · simp [aces_values, scaleFlare, addFlare, channelExposure, kCoeff, h]
  · simp [aces_values, scaleFlare, addFlare, channelExposure, kCoeff, h]
  · refine ⟨((dot ill rb)⁻¹ * dot3 ill spd rb + FLARE_PERCENTAGE) * S_FLARE_FACTOR,
      ((dot ill gb)⁻¹ * dot3 ill spd gb + FLARE_PERCENTAGE) * S_FLARE_FACTOR,
      ((dot ill bb)⁻¹ * dot3 ill spd bb + FLARE_PERCENTAGE) * S_FLARE_FACTOR, ?_⟩
    simp [aces_values, scaleFlare, addFlare, channelExposure, kCoeff, hr, hg, hb]

/-- C9: the integrator applies no clamping: a saturated spectral product
yields a channel value above 1 and a negative spectral product yields a
channel value below 0, both returned as computed, while a well-behaved
input stays inside [0, 1]. -/
theorem aces_values_unclamped :
    aces_values [10] [1] [1] [1] [1] =
      (some (18009/1850), some (18009/1850), some (18009/1850)) ∧
    (1 : ℚ) < 18009/1850 ∧
    aces_values [-1] [1] [1] [1] [1] =
      (some (-1791/1850), some (-1791/1850), some (-1791/1850)) ∧
    (-1791/1850 : ℚ) < 0 ∧
    aces_values [1/2] [1] [1] [1] [1] =
      (some (909/1850), some (909/1850), some (909/1850)) ∧
    (0 : ℚ) ≤ 909/1850 ∧ (909/1850 : ℚ) ≤ 1 := by
  refine ⟨?_, by norm_num, ?_, by norm_num, ?_, by norm_num, by norm_num⟩ <;>
    · simp [aces_values, scaleFlare, addFlare, channelExposure, kCoeff, dot, dot3,
        FLARE_PERCENTAGE, S_FLARE_FACTOR]
      norm_num

/-- C6: a constant spd of value v at every wavelength of the shared grid,
integrated under any illuminant whose three channel integrals are nonzero,
yields (v + 0.005) * (0.18 / 0.185) in each output channel: the pre-flare
exposure is exactly v in all three channels, whatever the shape of the
three response curves. -/
theorem aces_flat_spd_normalisation (v : ℚ) (ill rb gb bb : List ℚ)
    (hr : dot ill rb ≠ 0) (hg : dot ill gb ≠ 0) (hb : dot ill bb ≠ 0) :
    aces_values (List.replicate ill.length v) ill rb gb bb =
      (some ((v + 0.005) * (0.18 / 0.185)),
       some ((v + 0.005) * (0.18 / 0.185)),
       some ((v + 0.005) * (0.18 / 0.185))) := by
  unfold aces_values
  rw [channelExposure_replicate ill rb v hr, channelExposure_replicate ill gb v hg,
    channelExposure_replicate ill bb v hb]
  show (some ((v + FLARE_PERCENTAGE) * S_FLARE_FACTOR),
        some ((v + FLARE_PERCENTAGE) * S_FLARE_FACTOR),
        some ((v + FLARE_PERCENTAGE) * S_FLARE_FACTOR)) = _
  norm_num [FLARE_PERCENTAGE, S_FLARE_FACTOR]

/-- Witness for C6 at a concrete flat spectral sample. -/
theorem aces_flat_spd_normalisation_witness :
    aces_values (List.replicate ([3] : List ℚ).length 2) [3] [1] [1] [1] =
      (some ((2 + 0.005) * (0.18 / 0.185)),
       some ((2 + 0.005) * (0.18 / 0.185)),
       some ((2 + 0.005) * (0.18 / 0.185))) :=
  aces_flat_spd_normalisation 2 [3] [1] [1] [1]
    (by norm_num [dot]) (by norm_num [dot]) (by norm_num [dot])

/-- C10: with nonnegative spectral data and response curves and strictly
positive channel integrals, every output channel is at least
0.005 * 0.18 / 0.185, and an all-zero spd yields exactly that strictly
positive value in each channel. -/
theorem aces_flare_floor (spd ill rb gb bb : List ℚ)
    (hspd : ∀ x ∈ spd, 0 ≤ x) (hill : ∀ x ∈ ill, 0 ≤ x)
    (hrb : ∀ x ∈ rb, 0 ≤ x) (hgb : ∀ x ∈ gb, 0 ≤ x) (hbb : ∀ x ∈ bb, 0 ≤ x)
    (hr : 0 < dot ill rb) (hg : 0 < dot ill gb) (hb : 0 < dot ill bb) :
    (∃ a b c : ℚ, aces_values spd ill rb gb bb = (some a, some b, some c) ∧
      0.005 * 0.18 / 0.185 ≤ a ∧ 0.005 * 0.18 / 0.185 ≤ b ∧
      0.005 * 0.18 / 0.185 ≤ c) ∧
    aces_values (List.replicate ill.length 0) ill rb gb bb =
      (some (0.005 * 0.18 / 0.185), some (0.005 * 0.18 / 0.185),
       some (0.005 * 0.18 / 0.185)) := by
  have hbound : ∀ cb : List ℚ, (∀ x ∈ cb, 0 ≤ x) → 0 < dot ill cb →
      0.005 * 0.18 / 0.185 ≤
        ((dot ill cb)⁻¹ * dot3 ill spd cb + FLARE_PERCENTAGE) * S_FLARE_FACTOR := by
    intro cb hcb hpos
    have ht : 0 ≤ dot3 ill spd cb := dot3_nonneg ill spd cb hill hspd hcb
    have hq : 0 ≤ (dot ill cb)⁻¹ * dot3 ill spd cb :=
      mul_nonneg (inv_nonneg.mpr hpos.le) ht
    have hS : FLARE_PERCENTAGE * S_FLARE_FACTOR ≤
        ((dot ill cb)⁻¹ * dot3 ill spd cb + FLARE_PERCENTAGE) * S_FLARE_FACTOR := by
      have hSpos : (0 : ℚ) ≤ S_FLARE_FACTOR := by
        norm_num [S_FLARE_FACTOR, FLARE_PERCENTAGE]
      exact mul_le_mul_of_nonneg_right (by linarith) hSpos
    calc (0.005 * 0.18 / 0.185 : ℚ)
        = FLARE_PERCENTAGE * S_FLARE_FACTOR := by
          norm_num [FLARE_PERCENTAGE, S_FLARE_FACTOR]
      _ ≤ _ := hS
  constructor
  · refine ⟨((dot ill rb)⁻¹ * dot3 ill spd rb + FLARE_PERCENTAGE) * S_FLARE_FACTOR,
      ((dot ill gb)⁻¹ * dot3 ill spd gb + FLARE_PERCENTAGE) * S_FLARE_FACTOR,
      ((dot ill bb)⁻¹ * dot3 ill spd bb + FLARE_PERCENTAGE) * S_FLARE_FACTOR,
      ?_, hbound rb hrb hr, hbound gb hgb hg, hbound bb hbb hb⟩
    simp [aces_values, scaleFlare, addFlare, channelExposure, kCoeff,
      hr.ne', hg.ne', hb.ne']
  · unfold aces_values
    rw [channelExposure_replicate ill rb 0 hr.ne',
      channelExposure_replicate ill gb 0 hg.ne',
      channelExposure_replicate ill bb 0 hb.ne']
    show (some ((0 + FLARE_PERCENTAGE) * S_FLARE_FACTOR),
          some ((0 + FLARE_PERCENTAGE) * S_FLARE_FACTOR),
          some ((0 + FLARE_PERCENTAGE) * S_FLARE_FACTOR)) = _
    norm_num [FLARE_PERCENTAGE, S_FLARE_FACTOR]

/-- Witness for C10 at concrete nonnegative data. -/
theorem aces_flare_floor_witness :
    (∃ a b c : ℚ, aces_values [1] [2] [1] [1] [1] = (some a, some b, some c) ∧
      0.005 * 0.18 / 0.185 ≤ a ∧ 0.005 * 0.18 / 0.185 ≤ b ∧
      0.005 * 0.18 / 0.185 ≤ c) ∧
    aces_values (List.replicate ([2] : List ℚ).length 0) [2] [1] [1] [1] =
      (some (0.005 * 0.18 / 0.185), some (0.005 * 0.18 / 0.185),
       some (0.005 * 0.18 / 0.185)) :=
  aces_flare_floor [1] [2] [1] [1] [1]
    (by norm_num) (by norm_num) (by norm_num) (by norm_num) (by norm_num)
    (by norm_num [dot]) (by norm_num [dot]) (by norm_num [dot])

/-- C3 failing input: at v = 0.01 the Rec. 709 decode of the encode of v
overshoots v by more than 1e-6 (in fact by about 9.4e-4), because the
decoding branch threshold 0.018 is compared against the encoded signal,
whose linear segment extends up to 4.5 * 0.018 = 0.081.  So the bundled
pair does not round-trip within the claimed tolerance. -/
theorem rec709_roundtrip_gap :
    REC_709_INVERSE_TRANSFER_FUNCTION (REC_709_TRANSFER_FUNCTION (1 / 100)) - 1 / 100
      > 1 / 1000000 := by
  have h1 : REC_709_TRANSFER_FUNCTION (1 / 100) = 9 / 200 := by
    rw [REC_709_TRANSFER_FUNCTION, if_pos (by norm_num)]
    norm_num
  rw [h1, REC_709_INVERSE_TRANSFER_FUNCTION, if_neg (by norm_num)]
  have h2 : ((9 / 200 + 0.099) / 1.099 : ℝ) = 144 / 1099 := by norm_num
  have h3 : ((1 : ℝ) / 0.45) = 20 / 9 := by norm_num
  rw [h2, h3]
  have ha : (0 : ℝ) ≤ 144 / 1099 := by norm_num
  have e1 : (((144 : ℝ) / 1099) ^ ((20 : ℝ) / 9)) ^ (9 : ℕ)
      = ((144 : ℝ) / 1099) ^ (20 : ℕ) := by
    rw [← Real.rpow_natCast (((144 : ℝ) / 1099) ^ ((20 : ℝ) / 9)) 9,
      ← Real.rpow_mul ha, ← Real.rpow_natCast ((144 : ℝ) / 1099) 20]
    norm_num
  have key : ((109 : ℝ) / 10000) ^ (9 : ℕ)
      < (((144 : ℝ) / 1099) ^ ((20 : ℝ) / 9)) ^ (9 : ℕ) := by
    rw [e1]
    norm_num
  have h4 : (109 : ℝ) / 10000 < ((144 : ℝ) / 1099) ^ ((20 : ℝ) / 9) :=
    lt_of_pow_lt_pow_left₀ 9 (Real.rpow_nonneg ha _) key
  linarith

/-- C7: the Extrapolator over the linear interpolation of the points
5 to 5, 6 to 6, 7 to 7 yields [4, 8] on the array [4, 8] and the scalar 4
on the scalar 4 (default Linear policy, boundary slope 1). -/
theorem extrapolator_linear_scenario :
    extrapolatorEvalList ExtrapMethod.Linear [5, 6, 7] [5, 6, 7] [4, 8] = [4, 8] ∧
    extrapolatorEval ExtrapMethod.Linear [5, 6, 7] [5, 6, 7] 4 = 4 := by
  constructor
  · show [extrapolatorEval _ _ _ 4, extrapolatorEval _ _ _ 8] = _
    norm_num [extrapolatorEval, slopeLeft, slopeRight, List.getLastD]
  · norm_num [extrapolatorEval, slopeLeft, List.getLastD]

/-- C8: the integrator call aligns fresh copies of differently-shaped
inputs onto the response shape and leaves the two caller-visible objects
exactly as they were passed; the aligned copy used internally carries the
response shape as its grid. -/
theorem aces_call_preserves_inputs (ricdShape rb gb bb : List ℚ)
    (spd illuminant : SpectralFunction) :
    (spectral_to_aces_relative_exposure_values ricdShape rb gb bb spd illuminant).2
        = (spd, illuminant) ∧
    (spd.clone.align ricdShape).shape = ricdShape ∧
    (spectral_to_aces_relative_exposure_values ricdShape rb gb bb spd illuminant).1
        = aces_values
            (if spd.shape ≠ ricdShape then spd.clone.align ricdShape else spd).values
            (if illuminant.shape ≠ ricdShape then illuminant.clone.align ricdShape
             else illuminant).values rb gb bb :=
  ⟨rfl, rfl, rfl⟩

end Colour
